import Mathlib

/-!
Verification development for the gsuite-mcp repository.

The Gmail draft service (src/modules/gmail/services/draft.ts) is embedded
from the source.  The MCP request layer (src/index.ts) is embedded from the
source.  The account-manager module (src/modules/accounts) is not present in
the repository snapshot; the handler in src/index.ts is its only visible
caller, so those operations are modelled from the specification, each marked
in its doc comment.

Conventions of the embedding:
* JavaScript async functions become pure Lean functions; external
  collaborators (attachment service, drive service, Gmail API client,
  OAuth refresh / code-exchange endpoints) are passed in as total oracle
  functions, and the set of collaborator invocations performed by a call is
  returned alongside its result so that "no network call" style properties
  can be stated.
* Thrown errors become `Except` values.
* JavaScript string truthiness (`!s` is true for both `undefined` and `""`)
  is modelled explicitly on `Option String`.
* The clock (`Date.now()`, `new Date().toISOString()`) is a `Nat` parameter.
-/

namespace Gsuite

/-- Truthiness of an optional JavaScript string: `undefined` and `""` are falsy. -/
def optStrTruthy : Option String → Bool
  | none => false
  | some s => !(s == "")

/-- Error object thrown by the Gmail module (`GmailError(message, code, resolution?)`);
the third constructor argument is optional, hence `resolution : Option String`. -/
structure GmailError where
  message : String
  code : String
  resolution : Option String
deriving DecidableEq, Repr

/-- Wrapping performed by each DraftService catch block: the caught error is
replaced by a fresh `GmailError` whose resolution is the inner message. -/
def wrapDraftError (msg code : String) (inner : GmailError) : GmailError :=
  { message := msg, code := code, resolution := some inner.message }

/-- Record describing a successfully processed attachment, as returned by the
attachment service collaborator. -/
structure Attachment where
  id : String
  name : String
  mimeType : String
deriving DecidableEq, Repr

/-- Result of `attachmentService.processAttachment`. -/
structure ProcessResult where
  success : Bool
  attachment : Option Attachment
deriving DecidableEq, Repr

/-- Result of `driveService.downloadFile`. -/
structure DownloadResult where
  success : Bool
  data : String
deriving DecidableEq, Repr

/-- Attachment descriptor supplied by the caller inside `DraftData`. -/
structure AttachmentParam where
  driveFileId : Option String
  content : Option String
  name : String
  mimeType : String
  size : Option Nat
deriving DecidableEq, Repr

/-- The argument object built for `processAttachment` in draft.ts. -/
structure AttachmentSource where
  type : String
  fileId : Option String
  content : Option String
  name : String
  mimeType : String
  size : Nat
deriving DecidableEq, Repr

/-- Draft content parameters (`DraftData` in draft.ts). -/
structure DraftData where
  «to» : List String
  subject : String
  body : String
  cc : Option (List String)
  bcc : Option (List String)
  threadId : Option String
  attachments : Option (List AttachmentParam)
deriving DecidableEq, Repr

/-- Message metadata inside a Gmail API draft response. -/
structure MessageInfo where
  id : String
  threadId : String
  labelIds : List String
deriving DecidableEq, Repr

/-- Gmail API draft object (`data` of drafts.create/get/update); the message
part may be absent. -/
structure DraftInfo where
  id : String
  message : Option MessageInfo
deriving DecidableEq, Repr

/-- Gmail API drafts.list response (draft ids plus paging metadata). -/
structure DraftsListResponse where
  drafts : List String
  nextPageToken : Option String
  resultSizeEstimate : Nat
deriving DecidableEq, Repr

/-- Gmail API drafts.send response. -/
structure SendResponse where
  id : String
  threadId : String
  labelIds : Option (List String)
deriving DecidableEq, Repr

/-- The Gmail API client, modelled as total response oracles for the six
endpoints the draft service uses. -/
structure GmailClient where
  draftsCreate : String → Option String → DraftInfo
  draftsList : DraftsListResponse
  draftsGet : String → DraftInfo
  draftsUpdate : String → String → DraftInfo
  draftsDelete : String → Unit
  draftsSend : String → SendResponse

/-- One request issued to the Gmail API, recorded for frame properties. -/
inductive ApiRequest
  | draftsCreate (raw : String) (threadId : Option String)
  | draftsList
  | draftsGet (id : String)
  | draftsUpdate (id : String) (raw : String)
  | draftsDelete (id : String)
  | draftsSend (id : String)
deriving DecidableEq, Repr

/-- The DraftService instance: the optional Gmail client set by
`updateClient`, plus its attachment-service and drive-service collaborators
as oracles. -/
structure DraftService where
  gmailClient : Option GmailClient
  processAttachment : String → AttachmentSource → String → ProcessResult
  downloadFile : String → String → DownloadResult

/-- Folder constant `ATTACHMENT_FOLDERS.OUTGOING` (declared in the attachments
module, opaque to the draft service). -/
def ATTACHMENT_FOLDERS_OUTGOING : String := "OUTGOING"

/-- The `updateClient` method. -/
def updateClient (svc : DraftService) (client : GmailClient) : DraftService :=
  { svc with gmailClient := some client }

/-- The `ensureClient` method: fails with a CLIENT_ERROR when no client has
been set. -/
def ensureClient (svc : DraftService) : Except GmailError GmailClient :=
  match svc.gmailClient with
  | none => .error { message := "Gmail client not initialized",
                     code := "CLIENT_ERROR",
                     resolution := some "Please ensure the service is initialized" }
  | some c => .ok c

/-- The source record built for each attachment before calling
`processAttachment` (drive vs local chosen by truthiness of driveFileId). -/
def mkAttachmentSource (a : AttachmentParam) : AttachmentSource :=
  { type := if optStrTruthy a.driveFileId then "drive" else "local",
    fileId := a.driveFileId,
    content := a.content,
    name := a.name,
    mimeType := a.mimeType,
    size := a.size.getD 0 }

/-- The attachment-processing loop of createDraft/updateDraft: each attachment
is processed and kept only when the result reports success with an attachment
record; failures are skipped without signalling an error. -/
def processAttachmentsLoop (svc : DraftService) (email : String) :
    List AttachmentParam → List Attachment
  | [] => []
  | a :: rest =>
    let r := svc.processAttachment email (mkAttachmentSource a) ATTACHMENT_FOLDERS_OUTGOING
    match r.success, r.attachment with
    | true, some att => att :: processAttachmentsLoop svc email rest
    | _, _ => processAttachmentsLoop svc email rest

/-- Base64 alphabet. -/
def base64Chars : List Char :=
  "ABCDEFGHIJKLMNOPQRSTUVWXYZabcdefghijklmnopqrstuvwxyz0123456789+/".toList

/-- Character of the base64 alphabet at a 6-bit index. -/
def b64c (i : Nat) : Char := base64Chars.getD (i % 64) 'A'

/-- Base64 encoding of a byte list (standard padding). -/
def base64EncodeBytes : List Nat → List Char
  | [] => []
  | [a] =>
      [b64c (a / 4), b64c ((a % 4) * 16), '=', '=']
  | [a, b] =>
      [b64c (a / 4), b64c ((a % 4) * 16 + b / 16), b64c ((b % 16) * 4), '=']
  | a :: b :: c :: rest =>
      b64c (a / 4) :: b64c ((a % 4) * 16 + b / 16) ::
      b64c ((b % 16) * 4 + c / 64) :: b64c (c % 64) :: base64EncodeBytes rest

/-- The `Buffer.from(s).toString(base64)` operation. -/
def base64Encode (s : String) : String :=
  String.mk (base64EncodeBytes (s.toUTF8.toList.map (·.toNat)))

/-- Join a list of strings with a comma separator (`Array.join(", ")`). -/
def joinComma (xs : List String) : String := String.intercalate ", " xs

/-- The Cc header part: empty string unless the cc list is present and nonempty. -/
def ccHeader : Option (List String) → String
  | some (x :: xs) => "Cc: " ++ joinComma (x :: xs) ++ "\n"
  | _ => ""

/-- The Bcc header part: empty string unless the bcc list is present and nonempty. -/
def bccHeader : Option (List String) → String
  | some (x :: xs) => "Bcc: " ++ joinComma (x :: xs) ++ "\n"
  | _ => ""

/-- The fixed leading message parts of the MIME message built by
createDraft/updateDraft. -/
def mkHeaderParts (data : DraftData) (boundary : String) : List String :=
  ["MIME-Version: 1.0\n",
   "Content-Type: multipart/mixed; boundary=\"" ++ boundary ++ "\"\n",
   "To: " ++ joinComma data.«to» ++ "\n",
   ccHeader data.cc,
   bccHeader data.bcc,
   "Subject: " ++ data.subject ++ "\n\n",
   "--" ++ boundary ++ "\n",
   "Content-Type: text/plain; charset=\"UTF-8\"\n",
   "Content-Transfer-Encoding: 7bit\n\n",
   data.body,
   "\n"]

/-- The MIME parts pushed for one attachment whose content download succeeded. -/
def attBlock (boundary : String) (att : Attachment) (content : String) : List String :=
  ["--" ++ boundary ++ "\n",
   "Content-Type: " ++ att.mimeType ++ "\n",
   "Content-Transfer-Encoding: base64\n",
   "Content-Disposition: attachment; filename=\"" ++ att.name ++ "\"\n\n",
   base64Encode content,
   "\n"]

/-- The attachment-appending loop: for each processed attachment the drive
file is downloaded and, only on success, its MIME block is appended; download
failures contribute nothing and signal no error. -/
def attachmentLoopParts (svc : DraftService) (email boundary : String) :
    List Attachment → List String
  | [] => []
  | att :: rest =>
    let fr := svc.downloadFile email att.id
    (if fr.success then attBlock boundary att fr.data else []) ++
      attachmentLoopParts svc email boundary rest

/-- The complete MIME message parts list built by createDraft/updateDraft. -/
def mkMessageParts (svc : DraftService) (email : String) (data : DraftData)
    (processed : List Attachment) (boundary : String) : List String :=
  mkHeaderParts data boundary ++
    attachmentLoopParts svc email boundary processed ++
    ["--" ++ boundary ++ "--"]

/-- Result object of createDraft/updateDraft. -/
structure DraftResult where
  id : String
  messageId : Option String
  messageThreadId : Option String
  labelIds : List String
  updated : Nat
  attachments : List Attachment
deriving DecidableEq, Repr

/-- Result object of getDraft. -/
structure GetDraftResult where
  id : String
  messageId : Option String
  messageThreadId : Option String
  labelIds : List String
  updated : Nat
deriving DecidableEq, Repr

/-- Result object of listDrafts. -/
structure ListDraftsResult where
  drafts : List GetDraftResult
  nextPageToken : Option String
  resultSizeEstimate : Nat
deriving DecidableEq, Repr

/-- Result object of sendDraft. -/
structure SendResult where
  messageId : String
  threadId : String
  labelIds : Option (List String)
deriving DecidableEq, Repr

/-- The `createDraft` method: ensure client, process attachments, build the
MIME message, issue drafts.create; every caught error is re-wrapped as a
CREATE_ERROR. -/
def createDraft (svc : DraftService) (email : String) (data : DraftData)
    (now : Nat) : Except GmailError DraftResult × List ApiRequest :=
  match ensureClient svc with
  | .error e => (.error (wrapDraftError "Failed to create draft" "CREATE_ERROR" e), [])
  | .ok client =>
    let processed := processAttachmentsLoop svc email (data.attachments.getD [])
    let boundary := "boundary_" ++ toString now
    let fullMessage := String.join (mkMessageParts svc email data processed boundary)
    let raw := base64Encode fullMessage
    let draft := client.draftsCreate raw data.threadId
    (.ok { id := draft.id,
           messageId := draft.message.map (·.id),
           messageThreadId := draft.message.map (·.threadId),
           labelIds := (draft.message.map (·.labelIds)).getD [],
           updated := now,
           attachments := processed },
     [.draftsCreate raw data.threadId])

/-- The `getDraft` method; every caught error is re-wrapped as a GET_ERROR. -/
def getDraft (svc : DraftService) (_email draftId : String) (now : Nat) :
    Except GmailError GetDraftResult × List ApiRequest :=
  match ensureClient svc with
  | .error e => (.error (wrapDraftError "Failed to get draft" "GET_ERROR" e), [])
  | .ok client =>
    let d := client.draftsGet draftId
    (.ok { id := d.id,
           messageId := d.message.map (·.id),
           messageThreadId := d.message.map (·.threadId),
           labelIds := (d.message.map (·.labelIds)).getD [],
           updated := now },
     [.draftsGet draftId])

/-- Collect a list of Except results, keeping the first error (Promise.all). -/
def collectExcept : List (Except GmailError α) → Except GmailError (List α)
  | [] => .ok []
  | .error e :: _ => .error e
  | .ok a :: rest => (collectExcept rest).map (a :: ·)

/-- The `listDrafts` method: list draft ids, then fetch each via getDraft;
every caught error is re-wrapped as a LIST_ERROR. -/
def listDrafts (svc : DraftService) (email : String) (now : Nat) :
    Except GmailError ListDraftsResult × List ApiRequest :=
  match ensureClient svc with
  | .error e => (.error (wrapDraftError "Failed to list drafts" "LIST_ERROR" e), [])
  | .ok client =>
    let resp := client.draftsList
    let subs := resp.drafts.map (fun id => getDraft svc email id now)
    let reqs := ApiRequest.draftsList :: subs.flatMap (·.2)
    match collectExcept (subs.map (·.1)) with
    | .error e => (.error (wrapDraftError "Failed to list drafts" "LIST_ERROR" e), reqs)
    | .ok ds => (.ok { drafts := ds,
                       nextPageToken := resp.nextPageToken,
                       resultSizeEstimate := resp.resultSizeEstimate }, reqs)

/-- The `updateDraft` method: same construction as createDraft but issuing
drafts.update (no threadId in the request body); every caught error is
re-wrapped as an UPDATE_ERROR. -/
def updateDraft (svc : DraftService) (email draftId : String) (data : DraftData)
    (now : Nat) : Except GmailError DraftResult × List ApiRequest :=
  match ensureClient svc with
  | .error e => (.error (wrapDraftError "Failed to update draft" "UPDATE_ERROR" e), [])
  | .ok client =>
    let processed := processAttachmentsLoop svc email (data.attachments.getD [])
    let boundary := "boundary_" ++ toString now
    let fullMessage := String.join (mkMessageParts svc email data processed boundary)
    let raw := base64Encode fullMessage
    let draft := client.draftsUpdate draftId raw
    (.ok { id := draft.id,
           messageId := draft.message.map (·.id),
           messageThreadId := draft.message.map (·.threadId),
           labelIds := (draft.message.map (·.labelIds)).getD [],
           updated := now,
           attachments := processed },
     [.draftsUpdate draftId raw])

/-- The `deleteDraft` method; every caught error is re-wrapped as a DELETE_ERROR. -/
def deleteDraft (svc : DraftService) (_email draftId : String) :
    Except GmailError Unit × List ApiRequest :=
  match ensureClient svc with
  | .error e => (.error (wrapDraftError "Failed to delete draft" "DELETE_ERROR" e), [])
  | .ok client =>
    let _ := client.draftsDelete draftId
    (.ok (), [.draftsDelete draftId])

/-- The `sendDraft` method; every caught error is re-wrapped as a SEND_ERROR. -/
def sendDraft (svc : DraftService) (_email draftId : String) :
    Except GmailError SendResult × List ApiRequest :=
  match ensureClient svc with
  | .error e => (.error (wrapDraftError "Failed to send draft" "SEND_ERROR" e), [])
  | .ok client =>
    let d := client.draftsSend draftId
    (.ok { messageId := d.id, threadId := d.threadId, labelIds := d.labelIds },
     [.draftsSend draftId])

/-- Parameters of the `manageDraft` dispatcher. -/
inductive DraftAction
  | create
  | read
  | update
  | delete
  | send
deriving DecidableEq, Repr

/-- The `ManageDraftParams` object of draft.ts. -/
structure ManageDraftParams where
  email : String
  action : DraftAction
  draftId : Option String
  data : Option DraftData
deriving Repr

/-- Tagged result of `manageDraft`, one constructor per delegated operation. -/
inductive ManageResult
  | created (r : DraftResult)
  | listed (r : ListDraftsResult)
  | single (r : GetDraftResult)
  | updated (r : DraftResult)
  | deleted
  | sent (r : SendResult)
deriving DecidableEq, Repr

/-- Map the payload of an operation result into a `ManageResult`. -/
def mapManage (f : α → ManageResult)
    (r : Except GmailError α × List ApiRequest) :
    Except GmailError ManageResult × List ApiRequest :=
  (r.1.map f, r.2)

/-- The `manageDraft` dispatcher.  A missing or empty draftId is falsy in the
source (`!draftId`); the parameter errors below are thrown with no resolution
argument. -/
def manageDraft (svc : DraftService) (p : ManageDraftParams) (now : Nat) :
    Except GmailError ManageResult × List ApiRequest :=
  match p.action with
  | .create =>
    match p.data with
    | none =>
        (.error { message := "Draft data is required for create action",
                  code := "INVALID_PARAMS", resolution := none }, [])
    | some d => mapManage ManageResult.created (createDraft svc p.email d now)
  | .read =>
    if optStrTruthy p.draftId then
      mapManage ManageResult.single (getDraft svc p.email (p.draftId.getD "") now)
    else
      mapManage ManageResult.listed (listDrafts svc p.email now)
  | .update =>
    match p.data with
    | some d =>
        if optStrTruthy p.draftId then
          mapManage ManageResult.updated (updateDraft svc p.email (p.draftId.getD "") d now)
        else
          (.error { message := "Draft ID and data are required for update action",
                    code := "INVALID_PARAMS", resolution := none }, [])
    | none =>
        (.error { message := "Draft ID and data are required for update action",
                  code := "INVALID_PARAMS", resolution := none }, [])
  | .delete =>
    if optStrTruthy p.draftId then
      mapManage (fun _ => ManageResult.deleted) (deleteDraft svc p.email (p.draftId.getD ""))
    else
      (.error { message := "Draft ID is required for delete action",
                code := "INVALID_PARAMS", resolution := none }, [])
  | .send =>
    if optStrTruthy p.draftId then
      mapManage ManageResult.sent (sendDraft svc p.email (p.draftId.getD ""))
    else
      (.error { message := "Draft ID is required for send action",
                code := "INVALID_PARAMS", resolution := none }, [])

/-!
The MCP error formatting layer of src/index.ts.
-/

/-- Error object thrown by the accounts module (message, resolution as used by
the formatter in src/index.ts). -/
structure AccountError where
  message : String
  resolution : Option String
deriving DecidableEq, Repr

/-- Error object thrown by the calendar module (message, resolution as used by
the formatter in src/index.ts). -/
structure CalendarError where
  message : String
  resolution : Option String
deriving DecidableEq, Repr

/-- A value reaching the catch block of the tool dispatcher: one of the three
typed module errors, or anything else (an Error with a message, or a
non-Error value). -/
inductive ThrownError
  | account (e : AccountError)
  | gmail (e : GmailError)
  | calendar (e : CalendarError)
  | generic (message : Option String)
deriving DecidableEq, Repr

/-- The JSON failure payload built by `formatErrorResponse`: a status string,
the message, and an optional resolution (an undefined resolution is dropped
from the serialized object, modelled as `none`).  No field carries the
thrown error code. -/
structure ErrorResponse where
  status : String
  error : String
  resolution : Option String
deriving DecidableEq, Repr

/-- The `formatErrorResponse` method of src/index.ts. -/
def formatErrorResponse : ThrownError → ErrorResponse
  | .account e => { status := "error", error := e.message, resolution := e.resolution }
  | .gmail e => { status := "error", error := e.message, resolution := e.resolution }
  | .calendar e => { status := "error", error := e.message, resolution := e.resolution }
  | .generic m =>
      { status := "error",
        error := m.getD "Unknown error occurred",
        resolution := some "Please try again or contact support if the issue persists" }

/-!
The account management surface.

The handler bodies below (`useGoogleAccount`, `forgetGoogleAccount`) are
embedded from src/index.ts.  The account-manager operations they call live in
src/modules/accounts, which is absent from the repository snapshot, so each
is modelled from the specification (sections 4.1, 4.2, 4.3, 4.5, 4.6) and the
call surface visible in src/index.ts, and carries a doc comment saying so.
-/

/-- An OAuth credential stored for one account (access token, refresh token,
absolute expiry instant, granted scope set). -/
structure Credential where
  access_token : String
  refresh_token : String
  expiry : Nat
  grantedScopes : List String
deriving DecidableEq, Repr

/-- A registered account record (identifier, category, description). -/
structure Account where
  email : String
  category : Option String
  description : Option String
deriving DecidableEq, Repr

/-- Combined persistent state: account registry (insertion order) and token
store (association of account identifier to credential). -/
structure AccountState where
  accounts : List Account
  tokens : List (String × Credential)
deriving DecidableEq, Repr

/-- Credential stored for an account identifier. -/
def tokenFor (st : AccountState) (email : String) : Option Credential :=
  st.tokens.lookup email

/-- Modelled from the spec: the Scope Reconciler (section 4.3),
`isSatisfied(granted, required) = required ⊆ granted` by exact string
comparison; an empty required set is always satisfied.  The accounts module
implementing it is not under src/. -/
def scopesSatisfied (granted required : List String) : Bool :=
  required.all (fun s => granted.contains s)

/-- Modelled from the spec: `register` of the Account Registry (section 4.2),
called `validateAccount` at the call site in src/index.ts — creates the
account if absent, otherwise returns the existing record unchanged (first
registration wins).  The accounts module implementing it is not under src/. -/
def validateAccount (st : AccountState) (email : String)
    (category description : Option String) : AccountState :=
  if st.accounts.any (fun a => a.email == email) then st
  else { st with accounts := st.accounts ++ [{ email := email, category := category,
                                               description := description }] }

/-- Modelled from the spec: the Token Store `put` (section 4.1) as called via
`saveToken` in src/index.ts — a later put fully replaces the stored record
for that account.  The accounts module implementing it is not under src/. -/
def saveToken (st : AccountState) (email : String) (tok : Credential) : AccountState :=
  { st with tokens := (email, tok) :: st.tokens.filter (fun p => p.1 ≠ email) }

/-- Modelled from the spec: `remove`/revocation (sections 4.2 and 4.6) as
called via `removeAccount` in src/index.ts — deletes the account record and
cascades to delete its credential.  The accounts module implementing it is
not under src/. -/
def removeAccount (st : AccountState) (email : String) : AccountState :=
  { accounts := st.accounts.filter (fun a => a.email ≠ email),
    tokens := st.tokens.filter (fun p => p.1 ≠ email) }

/-- Status object returned by token validation. -/
structure TokenStatus where
  valid : Bool
  token : Option Credential
  reason : Option String
deriving DecidableEq, Repr

/-- Modelled from the spec: `validate` of the Orchestrator (section 4.6)
without its refresh step, as called via `validateToken` in src/index.ts —
absent credential gives reason "no credential"; insufficient scopes gives
reason "insufficient scope"; an expired access token gives the reason string
"Token expired" that the handler in src/index.ts compares against, with the
stale credential returned so the handler can refresh it.  The accounts module
implementing it is not under src/. -/
def validateToken (st : AccountState) (email : String)
    (required : List String) (now : Nat) : TokenStatus :=
  match tokenFor st email with
  | none => { valid := false, token := none, reason := some "no credential" }
  | some tok =>
    if !(scopesSatisfied tok.grantedScopes required) then
      { valid := false, token := some tok, reason := some "insufficient scope" }
    else if tok.expiry ≤ now then
      { valid := false, token := some tok, reason := some "Token expired" }
    else
      { valid := true, token := some tok, reason := none }

/-- A consent URL, carrying the scope set it requests. -/
structure AuthUrl where
  scopes : List String
deriving DecidableEq, Repr

/-- Modelled from the spec: `generateConsentUrl` of the Authorization Flow
Builder (section 4.4) as called via `generateAuthUrl` in src/index.ts —
deterministic construction of the consent URL from exactly the scope set it
is handed (the call site hands it only `args.required_scopes`).  The accounts
module implementing it is not under src/. -/
def generateAuthUrl (scopes : List String) : AuthUrl :=
  { scopes := scopes }

/-- External OAuth endpoints (refresh and code exchange), as total oracles
producing the credential the account manager would persist. -/
structure Oracles where
  refreshOracle : String → Credential
  exchangeOracle : String → Credential

/-- Collaborator invocations performed by one handler call: number of calls
to the refresh endpoint, to the code-exchange endpoint, and the scope sets
for which consent URLs were generated. -/
structure CallLog where
  refreshCalls : Nat
  exchangeCalls : Nat
  authUrlRequests : List (List String)
deriving DecidableEq, Repr

/-- JSON payload returned by the use_google_account handler (status, message,
and the auth URL when authorization is required; no credential field exists
in any of the handler responses). -/
structure UseAccountResponse where
  status : String
  message : String
  auth_url : Option AuthUrl
deriving DecidableEq, Repr

/-- Arguments of the use_google_account tool. -/
structure UseAccountArgs where
  email : String
  category : Option String
  description : Option String
  required_scopes : List String
  auth_code : Option String
deriving Repr

/-- Outcome of one use_google_account handler call: the response payload, the
state after the call, and the collaborator call log. -/
structure HandlerOutcome where
  response : UseAccountResponse
  state : AccountState
  log : CallLog
deriving Repr

/-- The use_google_account handler of src/index.ts: register the account,
validate the token, and on an invalid token either refresh (reason
"Token expired"), exchange a supplied auth code, or return a consent URL
built from the required scopes alone. -/
def useGoogleAccount (env : Oracles) (st : AccountState) (args : UseAccountArgs)
    (now : Nat) : HandlerOutcome :=
  let st1 := validateAccount st args.email args.category args.description
  let ts := validateToken st1 args.email args.required_scopes now
  if ts.valid && ts.token.isSome then
    { response := { status := "success",
                    message := "Account is already authenticated with required scopes",
                    auth_url := none },
      state := st1,
      log := { refreshCalls := 0, exchangeCalls := 0, authUrlRequests := [] } }
  else
    match ts.token, ts.reason with
    | some tok, some "Token expired" =>
        let newToken := env.refreshOracle tok.refresh_token
        let st2 := saveToken st1 args.email newToken
        { response := { status := "refreshing",
                        message := "Token refreshed successfully, please retry the request",
                        auth_url := none },
          state := st2,
          log := { refreshCalls := 1, exchangeCalls := 0, authUrlRequests := [] } }
    | _, _ =>
        if optStrTruthy args.auth_code then
          let tokenData := env.exchangeOracle (args.auth_code.getD "")
          let st2 := saveToken st1 args.email tokenData
          { response := { status := "success",
                          message := "Authentication successful! Token saved. Please retry your request.",
                          auth_url := none },
            state := st2,
            log := { refreshCalls := 0, exchangeCalls := 1, authUrlRequests := [] } }
        else
          let url := generateAuthUrl args.required_scopes
          { response := { status := "auth_required",
                          message := "Please complete authentication:",
                          auth_url := some url },
            state := st1,
            log := { refreshCalls := 0, exchangeCalls := 0,
                     authUrlRequests := [args.required_scopes] } }

/-- Outcome of the forget_google_account handler. -/
structure ForgetOutcome where
  status : String
  message : String
  state : AccountState
deriving Repr

/-- The forget_google_account handler of src/index.ts: removes the account
(and, per the spec model of removeAccount, its credential) and reports
success. -/
def forgetGoogleAccount (st : AccountState) (email : String) : ForgetOutcome :=
  let st2 := removeAccount st email
  { status := "success",
    message := "Successfully removed account " ++ email ++ " and deleted associated tokens",
    state := st2 }

/-- Summary entry produced by listing accounts. -/
structure AccountSummary where
  email : String
  category : Option String
  description : Option String
  authenticated : Bool
deriving DecidableEq, Repr

/-- Modelled from the spec: `list` (sections 4.2 and 4.6) as called via
`listAccounts` in src/index.ts — the accounts in insertion order, with a
credential summary that never exposes raw tokens.  The accounts module
implementing it is not under src/. -/
def listAccounts (st : AccountState) : List AccountSummary :=
  st.accounts.map (fun a =>
    { email := a.email, category := a.category, description := a.description,
      authenticated := (tokenFor st a.email).isSome })

/-- Modelled from the spec: the single-flight de-duplication of the Refresh
Engine (section 4.5) — a batch of concurrent refresh requests is served so
that at most one collaborator call is in flight per key; callers whose key is
already in flight await and receive that single result.  The batch is
processed against an in-flight table: a key already present reuses the
recorded result without a collaborator call.  Returns the per-caller results
and the number of collaborator calls.  The accounts module implementing the
Refresh Engine is not under src/. -/
def singleFlightBatch (collab : String → Credential) :
    List String → List (String × Credential) → List Credential × Nat
  | [], _ => ([], 0)
  | k :: rest, inflight =>
    match inflight.lookup k with
    | some c =>
        let r := singleFlightBatch collab rest inflight
        (c :: r.1, r.2)
    | none =>
        let c := collab k
        let r := singleFlightBatch collab rest ((k, c) :: inflight)
        (c :: r.1, r.2 + 1)

/-- The refresh request one use_google_account invocation submits after its
read phase (registration plus token validation, which precede the refresh
await point): the stored refresh token when the handler observes reason
"Token expired", nothing otherwise. -/
def refreshRequestOf (st : AccountState) (args : UseAccountArgs) (now : Nat) :
    Option String :=
  let ts := validateToken (validateAccount st args.email args.category args.description)
              args.email args.required_scopes now
  if ts.valid && ts.token.isSome then none
  else
    match ts.token, ts.reason with
    | some tok, some "Token expired" => some tok.refresh_token
    | _, _ => none

/-- N concurrent use_google_account invocations for the same arguments, all
of whose read phases complete before any refresh does (the adversarial
interleaving the single-flight guarantee addresses): every caller that
observed an expired token submits its refresh request to the single-flight
engine.  Returns the credentials delivered to the callers and the number of
refresh-collaborator calls. -/
def concurrentValidations (collab : String → Credential) (n : Nat)
    (st : AccountState) (args : UseAccountArgs) (now : Nat) :
    List Credential × Nat :=
  singleFlightBatch collab
    ((List.replicate n (refreshRequestOf st args now)).filterMap id) []

/-!
Helper lemmas shared by the claim theorems.
-/

theorem tokens_validateAccount (st : AccountState) (email : String)
    (c d : Option String) : (validateAccount st email c d).tokens = st.tokens := by
  unfold validateAccount
  split <;> rfl

theorem tokenFor_validateAccount (st : AccountState) (email email' : String)
    (c d : Option String) :
    tokenFor (validateAccount st email c d) email' = tokenFor st email' := by
  unfold tokenFor
  rw [tokens_validateAccount]

theorem lookup_filter_ne_none (l : List (String × Credential)) (e : String) :
    (l.filter (fun p => p.1 ≠ e)).lookup e = none := by
  induction l with
  | nil => rfl
  | cons p rest ih =>
    by_cases h : p.1 = e
    · simpa [List.filter_cons, h] using ih
    · have hbe : (e == p.1) = false := beq_eq_false_iff_ne.mpr (fun he => h he.symm)
      simp [List.filter_cons, h, List.lookup, hbe, ih]
      intro a b _ hne heq
      exact hne heq.symm

theorem mem_accounts_validateAccount (st : AccountState) (email : String)
    (c d : Option String) :
    (validateAccount st email c d).accounts.any (fun a => a.email == email) = true := by
  unfold validateAccount
  by_cases h : st.accounts.any (fun a => a.email == email) = true
  · simp [h]
  · simp only [h, if_false, Bool.false_eq_true]
    simp

theorem validateToken_eq_of_tokenFor (st : AccountState) (email : String)
    (req : List String) (now : Nat) (tok : Credential)
    (h : tokenFor st email = some tok) :
    validateToken st email req now =
      (if !(scopesSatisfied tok.grantedScopes req) then
        { valid := false, token := some tok, reason := some "insufficient scope" }
      else if tok.expiry ≤ now then
        { valid := false, token := some tok, reason := some "Token expired" }
      else
        { valid := true, token := some tok, reason := none }) := by
  unfold validateToken
  rw [h]

theorem singleFlightBatch_all_hits (collab : String → Credential) (k : String)
    (c : Credential) (inflight : List (String × Credential))
    (h : inflight.lookup k = some c) (n : Nat) :
    singleFlightBatch collab (List.replicate n k) inflight =
      (List.replicate n c, 0) := by
  induction n with
  | zero => rfl
  | succ m ih =>
    simp only [List.replicate_succ, singleFlightBatch, h, ih]

theorem singleFlightBatch_replicate (collab : String → Credential) (k : String)
    (n : Nat) (h : 1 ≤ n) :
    singleFlightBatch collab (List.replicate n k) [] =
      (List.replicate n (collab k), 1) := by
  match n, h with
  | Nat.succ m, _ =>
    have hl : (((k, collab k) :: ([] : List (String × Credential))).lookup k) =
        some (collab k) := by
      simp [List.lookup]
    simp only [List.replicate_succ, singleFlightBatch, List.lookup_nil,
      singleFlightBatch_all_hits collab k (collab k) _ hl m]

theorem validateAccount_of_present (st : AccountState) (email : String)
    (c d : Option String)
    (h : st.accounts.any (fun a => a.email == email) = true) :
    validateAccount st email c d = st := by
  unfold validateAccount
  simp [h]

/-- Claim C5: registering an account identifier a second time, with different
category and description, leaves the stored record (and the whole registry
state) unchanged — register is idempotent and the first registration's
metadata wins. -/
theorem c5_register_idempotent (st : AccountState) (email : String)
    (c1 d1 c2 d2 : Option String) :
    validateAccount (validateAccount st email c1 d1) email c2 d2 =
      validateAccount st email c1 d1 :=
  validateAccount_of_present _ _ _ _ (mem_accounts_validateAccount st email c1 d1)

/-- Claim C7: revoking an account deletes both the credential and the account
record — a subsequent validation with any scope set reports valid=false with
reason "no credential", and the account listing no longer includes the
account. -/
theorem c7_revoke_deletes_account_and_credential (st : AccountState)
    (email : String) (scopes : List String) (now : Nat) :
    validateToken (forgetGoogleAccount st email).state email scopes now =
      { valid := false, token := none, reason := some "no credential" } ∧
    (listAccounts (forgetGoogleAccount st email).state).all
      (fun s => s.email != email) = true := by
  constructor
  · unfold validateToken tokenFor forgetGoogleAccount removeAccount
    simp only [lookup_filter_ne_none]
  · rw [List.all_eq_true]
    intro s hs
    unfold listAccounts forgetGoogleAccount removeAccount at hs
    simp only [List.mem_map, List.mem_filter] at hs
    obtain ⟨a, ⟨_, hane⟩, rfl⟩ := hs
    simpa using hane

/-- Claim C6: when the stored credential grants all required scopes and its
access token is not expired, the handler reports success and invokes neither
the refresh collaborator nor the code-exchange collaborator, and the token
store is untouched. -/
theorem c6_valid_token_no_network (env : Oracles) (st : AccountState)
    (args : UseAccountArgs) (now : Nat) (tok : Credential)
    (htok : tokenFor st args.email = some tok)
    (hsc : scopesSatisfied tok.grantedScopes args.required_scopes = true)
    (hexp : now < tok.expiry) :
    (useGoogleAccount env st args now).response.status = "success" ∧
    (useGoogleAccount env st args now).log.refreshCalls = 0 ∧
    (useGoogleAccount env st args now).log.exchangeCalls = 0 ∧
    (useGoogleAccount env st args now).state.tokens = st.tokens := by
  have h1 : tokenFor (validateAccount st args.email args.category args.description)
      args.email = some tok :=
    (tokenFor_validateAccount st args.email args.email args.category args.description).trans htok
  have h2 := validateToken_eq_of_tokenFor _ args.email args.required_scopes now tok h1
  rw [hsc] at h2
  rw [if_neg (by simp)] at h2
  rw [if_neg (Nat.not_le.mpr hexp)] at h2
  unfold useGoogleAccount
  simp only [h2]
  simp [tokens_validateAccount]

theorem tokenFor_saveToken (st : AccountState) (e : String) (tok : Credential) :
    tokenFor (saveToken st e tok) e = some tok := by
  unfold tokenFor saveToken
  simp [List.lookup]

theorem filterMap_id_replicate_some (n : Nat) (k : String) :
    (List.replicate n (some k)).filterMap id = List.replicate n k := by
  induction n with
  | zero => rfl
  | succ m ih => simp [List.replicate_succ, ih]

/-- Concrete fixtures used by the closed witness and counterexample theorems. -/
def tokRead : Credential :=
  { access_token := "at0", refresh_token := "rt0", expiry := 100,
    grantedScopes := ["read"] }

/-- A credential whose access token expired at instant 5. -/
def tokStale : Credential :=
  { access_token := "at1", refresh_token := "rt1", expiry := 5,
    grantedScopes := ["read"] }

/-- The credential the refresh oracle hands back for the stale fixture. -/
def tokFresh : Credential :=
  { access_token := "at2", refresh_token := "rt1", expiry := 4000,
    grantedScopes := ["read"] }

/-- Oracle fixture: every refresh and exchange yields the fresh credential. -/
def envFix : Oracles :=
  { refreshOracle := fun _ => tokFresh, exchangeOracle := fun _ => tokFresh }

/-- State fixture: one account holding the unexpired read-scoped credential. -/
def stFresh : AccountState :=
  { accounts := [{ email := "a@x.com", category := some "work", description := none }],
    tokens := [("a@x.com", tokRead)] }

/-- State fixture: one account holding the expired credential. -/
def stStale : AccountState :=
  { accounts := [{ email := "a@x.com", category := some "work", description := none }],
    tokens := [("a@x.com", tokStale)] }

/-- Request fixture asking for the read scope with no auth code. -/
def argsRead : UseAccountArgs :=
  { email := "a@x.com", category := none, description := none,
    required_scopes := ["read"], auth_code := none }

/-- Request fixture asking for the write scope with no auth code. -/
def argsWrite : UseAccountArgs :=
  { email := "a@x.com", category := none, description := none,
    required_scopes := ["write"], auth_code := none }

/-- Witness for claim C6 at a concrete unexpired, sufficiently-scoped state. -/
theorem c6_witness :
    (useGoogleAccount envFix stFresh argsRead 10).response.status = "success" ∧
    (useGoogleAccount envFix stFresh argsRead 10).log.refreshCalls = 0 ∧
    (useGoogleAccount envFix stFresh argsRead 10).log.exchangeCalls = 0 ∧
    (useGoogleAccount envFix stFresh argsRead 10).state.tokens = stFresh.tokens :=
  c6_valid_token_no_network envFix stFresh argsRead 10 tokRead (by decide) (by decide)
    (by decide)

/-- Counterexample to claim C1 as stated: with an expired access token, a
present refresh token and sufficient granted scopes, the handler does not
return a success with the refreshed credential — it returns status
"refreshing" with a message instructing the caller to retry the request. -/
theorem c1_counterexample :
    (useGoogleAccount envFix stStale argsRead 10).response.status = "refreshing" ∧
    (useGoogleAccount envFix stStale argsRead 10).response.status ≠ "success" ∧
    (useGoogleAccount envFix stStale argsRead 10).response.message =
      "Token refreshed successfully, please retry the request" ∧
    (useGoogleAccount envFix stStale argsRead 10).response.auth_url = none := by
  decide

/-- Claim C1 (amended): on an expired access token with sufficient granted
scopes, the handler performs the refresh (one refresh-collaborator call) and
persists the refreshed credential, but responds with status "refreshing" and
a message telling the caller to retry; no credential is returned in the
response. -/
theorem c1_refresh_persists_but_requires_retry (env : Oracles)
    (st : AccountState) (args : UseAccountArgs) (now : Nat) (tok : Credential)
    (htok : tokenFor st args.email = some tok)
    (hsc : scopesSatisfied tok.grantedScopes args.required_scopes = true)
    (hexp : tok.expiry ≤ now) :
    (useGoogleAccount env st args now).response =
      { status := "refreshing",
        message := "Token refreshed successfully, please retry the request",
        auth_url := none } ∧
    (useGoogleAccount env st args now).log.refreshCalls = 1 ∧
    tokenFor (useGoogleAccount env st args now).state args.email =
      some (env.refreshOracle tok.refresh_token) := by
  have h1 : tokenFor (validateAccount st args.email args.category args.description)
      args.email = some tok :=
    (tokenFor_validateAccount st args.email args.email args.category args.description).trans htok
  have h2 := validateToken_eq_of_tokenFor _ args.email args.required_scopes now tok h1
  rw [hsc] at h2
  rw [if_neg (by simp)] at h2
  rw [if_pos hexp] at h2
  unfold useGoogleAccount
  simp only [h2]
  simp [tokenFor_saveToken]

/-- Witness for the amended claim C1 at a concrete expired state. -/
theorem c1_witness :
    (useGoogleAccount envFix stStale argsRead 10).response =
      { status := "refreshing",
        message := "Token refreshed successfully, please retry the request",
        auth_url := none } ∧
    (useGoogleAccount envFix stStale argsRead 10).log.refreshCalls = 1 ∧
    tokenFor (useGoogleAccount envFix stStale argsRead 10).state "a@x.com" =
      some (envFix.refreshOracle "rt1") :=
  c1_refresh_persists_but_requires_retry envFix stStale argsRead 10 tokStale
    (by decide) (by decide) (by decide)

/-- Counterexample to claim C2 as stated: with a stored credential granting
the read scope, requesting the write scope produces a consent URL scoped to
the write scope alone — the previously granted read scope is not unioned in. -/
theorem c2_counterexample :
    (tokenFor stFresh "a@x.com").map (fun t => t.grantedScopes) = some ["read"] ∧
    (useGoogleAccount envFix stFresh argsWrite 10).response.auth_url =
      some { scopes := ["write"] } ∧
    (useGoogleAccount envFix stFresh argsWrite 10).log.authUrlRequests = [["write"]] ∧
    ("read" ∈ (["write"] : List String)) = False := by
  refine ⟨by decide, by decide, by decide, by simp⟩

/-- Claim C2 (amended): when the stored credential's scopes do not satisfy
the request and no auth code is supplied, the handler requests a consent URL
scoped to exactly the caller-supplied required scopes, whatever scopes were
previously granted; no union with the granted scopes is computed. -/
theorem c2_auth_url_uses_required_scopes_only (env : Oracles)
    (st : AccountState) (args : UseAccountArgs) (now : Nat) (tok : Credential)
    (htok : tokenFor st args.email = some tok)
    (hsc : scopesSatisfied tok.grantedScopes args.required_scopes = false)
    (hcode : optStrTruthy args.auth_code = false) :
    (useGoogleAccount env st args now).response.status = "auth_required" ∧
    (useGoogleAccount env st args now).response.auth_url =
      some (generateAuthUrl args.required_scopes) ∧
    (useGoogleAccount env st args now).log.authUrlRequests = [args.required_scopes] ∧
    (useGoogleAccount env st args now).log.refreshCalls = 0 := by
  have h1 : tokenFor (validateAccount st args.email args.category args.description)
      args.email = some tok :=
    (tokenFor_validateAccount st args.email args.email args.category args.description).trans htok
  have h2 := validateToken_eq_of_tokenFor _ args.email args.required_scopes now tok h1
  rw [hsc] at h2
  rw [if_pos (by simp)] at h2
  unfold useGoogleAccount
  simp only [h2]
  simp [hcode]

/-- Witness for the amended claim C2 at a concrete state granting only the
read scope while the write scope is required. -/
theorem c2_witness :
    (useGoogleAccount envFix stFresh argsWrite 10).response.status = "auth_required" ∧
    (useGoogleAccount envFix stFresh argsWrite 10).response.auth_url =
      some (generateAuthUrl ["write"]) ∧
    (useGoogleAccount envFix stFresh argsWrite 10).log.authUrlRequests = [["write"]] ∧
    (useGoogleAccount envFix stFresh argsWrite 10).log.refreshCalls = 0 :=
  c2_auth_url_uses_required_scopes_only envFix stFresh argsWrite 10 tokRead
    (by decide) (by decide) (by decide)

/-- Claim C4: for N concurrent validations (N at least 1) of an account whose
credential is expired with a refresh token present and sufficient granted
scopes, the single-flight refresh engine performs exactly one
refresh-collaborator call, and every caller receives that single refreshed
credential. -/
theorem c4_single_flight_refresh (collab : String → Credential) (n : Nat)
    (st : AccountState) (args : UseAccountArgs) (now : Nat) (tok : Credential)
    (hn : 1 ≤ n)
    (htok : tokenFor st args.email = some tok)
    (hsc : scopesSatisfied tok.grantedScopes args.required_scopes = true)
    (hexp : tok.expiry ≤ now) :
    (concurrentValidations collab n st args now).2 = 1 ∧
    (concurrentValidations collab n st args now).1 =
      List.replicate n (collab tok.refresh_token) := by
  have h1 : tokenFor (validateAccount st args.email args.category args.description)
      args.email = some tok :=
    (tokenFor_validateAccount st args.email args.email args.category args.description).trans htok
  have h2 := validateToken_eq_of_tokenFor _ args.email args.required_scopes now tok h1
  rw [hsc] at h2
  rw [if_neg (by simp)] at h2
  rw [if_pos hexp] at h2
  have hreq : refreshRequestOf st args now = some tok.refresh_token := by
    unfold refreshRequestOf
    simp only [h2]
    simp
  unfold concurrentValidations
  rw [hreq, filterMap_id_replicate_some n tok.refresh_token,
    singleFlightBatch_replicate collab tok.refresh_token n hn]
  exact ⟨rfl, rfl⟩

/-- Witness for claim C4 with three concurrent callers over a concrete
expired credential. -/
theorem c4_witness :
    (concurrentValidations envFix.refreshOracle 3 stStale argsRead 10).2 = 1 ∧
    (concurrentValidations envFix.refreshOracle 3 stStale argsRead 10).1 =
      List.replicate 3 (envFix.refreshOracle "rt1") :=
  c4_single_flight_refresh envFix.refreshOracle 3 stStale argsRead 10 tokStale
    (by decide) (by decide) (by decide) (by decide)

/-!
Claims about the draft service.
-/

theorem processAttachmentsLoop_eq_filterMap (svc : DraftService) (email : String)
    (atts : List AttachmentParam) :
    processAttachmentsLoop svc email atts = atts.filterMap (fun a =>
      let r := svc.processAttachment email (mkAttachmentSource a) ATTACHMENT_FOLDERS_OUTGOING
      if r.success then r.attachment else none) := by
  induction atts with
  | nil => rfl
  | cons a rest ih =>
    unfold processAttachmentsLoop
    rcases hr : svc.processAttachment email (mkAttachmentSource a)
        ATTACHMENT_FOLDERS_OUTGOING with ⟨s, att⟩
    cases s <;> cases att <;> simp [hr, ih, List.filterMap_cons]

theorem attachmentLoopParts_eq_filter (svc : DraftService) (email boundary : String)
    (processed : List Attachment) :
    attachmentLoopParts svc email boundary processed =
      (processed.filter (fun att => (svc.downloadFile email att.id).success)).flatMap
        (fun att => attBlock boundary att (svc.downloadFile email att.id).data) := by
  induction processed with
  | nil => rfl
  | cons att rest ih =>
    unfold attachmentLoopParts
    cases hd : (svc.downloadFile email att.id).success <;>
      simp [hd, ih, List.filter_cons]

theorem ensureClient_of_some (svc : DraftService) (client : GmailClient)
    (h : svc.gmailClient = some client) : ensureClient svc = .ok client := by
  unfold ensureClient
  rw [h]

theorem createDraft_ok (svc : DraftService) (client : GmailClient)
    (h : svc.gmailClient = some client) (email : String) (data : DraftData)
    (now : Nat) :
    createDraft svc email data now =
      (let processed := processAttachmentsLoop svc email (data.attachments.getD [])
       let boundary := "boundary_" ++ toString now
       let raw := base64Encode (String.join (mkMessageParts svc email data processed boundary))
       let draft := client.draftsCreate raw data.threadId
       (.ok { id := draft.id,
              messageId := draft.message.map (·.id),
              messageThreadId := draft.message.map (·.threadId),
              labelIds := (draft.message.map (·.labelIds)).getD [],
              updated := now,
              attachments := processed },
        [.draftsCreate raw data.threadId])) := by
  unfold createDraft
  rw [ensureClient_of_some svc client h]

theorem updateDraft_ok (svc : DraftService) (client : GmailClient)
    (h : svc.gmailClient = some client) (email draftId : String)
    (data : DraftData) (now : Nat) :
    updateDraft svc email draftId data now =
      (let processed := processAttachmentsLoop svc email (data.attachments.getD [])
       let boundary := "boundary_" ++ toString now
       let raw := base64Encode (String.join (mkMessageParts svc email data processed boundary))
       let draft := client.draftsUpdate draftId raw
       (.ok { id := draft.id,
              messageId := draft.message.map (·.id),
              messageThreadId := draft.message.map (·.threadId),
              labelIds := (draft.message.map (·.labelIds)).getD [],
              updated := now,
              attachments := processed },
        [.draftsUpdate draftId raw])) := by
  unfold updateDraft
  rw [ensureClient_of_some svc client h]

/-- Fixture: a draft service whose Gmail client has never been set. -/
def svcNoClient : DraftService :=
  { gmailClient := none,
    processAttachment := fun _ _ _ => { success := true, attachment := none },
    downloadFile := fun _ _ => { success := true, data := "" } }

/-- Fixture: draft data with no attachments. -/
def dataEmpty : DraftData :=
  { «to» := ["b@x.com"], subject := "s", body := "b", cc := none, bcc := none,
    threadId := none, attachments := none }

/-- Counterexample to claim C8 as stated: with the client unset, createDraft
fails — but its catch block re-wraps the CLIENT_ERROR thrown by ensureClient,
so the surfaced GmailError carries code CREATE_ERROR (the inner message is
demoted to the resolution field); the code is not CLIENT_ERROR. -/
theorem c8_counterexample :
    (createDraft svcNoClient "a@x.com" dataEmpty 0).1 =
      .error { message := "Failed to create draft", code := "CREATE_ERROR",
               resolution := some "Gmail client not initialized" } ∧
    "CREATE_ERROR" ≠ "CLIENT_ERROR" := by
  refine ⟨rfl, by decide⟩

/-- Claim C8 (amended): with the Gmail client unset, every draft operation
fails without issuing any Gmail API request, and the surfaced GmailError
carries the operation-specific code (CREATE_ERROR, LIST_ERROR, GET_ERROR,
UPDATE_ERROR, DELETE_ERROR, SEND_ERROR) with the client-not-initialized
message of the underlying CLIENT_ERROR as its resolution. -/
theorem c8_unset_client_all_ops_fail_without_requests (svc : DraftService)
    (h : svc.gmailClient = none) (email draftId : String) (d : DraftData)
    (now : Nat) :
    createDraft svc email d now =
      (.error { message := "Failed to create draft", code := "CREATE_ERROR",
                resolution := some "Gmail client not initialized" }, []) ∧
    listDrafts svc email now =
      (.error { message := "Failed to list drafts", code := "LIST_ERROR",
                resolution := some "Gmail client not initialized" }, []) ∧
    getDraft svc email draftId now =
      (.error { message := "Failed to get draft", code := "GET_ERROR",
                resolution := some "Gmail client not initialized" }, []) ∧
    updateDraft svc email draftId d now =
      (.error { message := "Failed to update draft", code := "UPDATE_ERROR",
                resolution := some "Gmail client not initialized" }, []) ∧
    deleteDraft svc email draftId =
      (.error { message := "Failed to delete draft", code := "DELETE_ERROR",
                resolution := some "Gmail client not initialized" }, []) ∧
    sendDraft svc email draftId =
      (.error { message := "Failed to send draft", code := "SEND_ERROR",
                resolution := some "Gmail client not initialized" }, []) := by
  simp [createDraft, listDrafts, getDraft, updateDraft, deleteDraft, sendDraft,
    ensureClient, wrapDraftError, h]

/-- Witness for the amended claim C8 at the concrete clientless service. -/
theorem c8_witness :
    createDraft svcNoClient "a@x.com" dataEmpty 0 =
      (.error { message := "Failed to create draft", code := "CREATE_ERROR",
                resolution := some "Gmail client not initialized" }, []) ∧
    listDrafts svcNoClient "a@x.com" 0 =
      (.error { message := "Failed to list drafts", code := "LIST_ERROR",
                resolution := some "Gmail client not initialized" }, []) ∧
    getDraft svcNoClient "a@x.com" "d1" 0 =
      (.error { message := "Failed to get draft", code := "GET_ERROR",
                resolution := some "Gmail client not initialized" }, []) ∧
    updateDraft svcNoClient "a@x.com" "d1" dataEmpty 0 =
      (.error { message := "Failed to update draft", code := "UPDATE_ERROR",
                resolution := some "Gmail client not initialized" }, []) ∧
    deleteDraft svcNoClient "a@x.com" "d1" =
      (.error { message := "Failed to delete draft", code := "DELETE_ERROR",
                resolution := some "Gmail client not initialized" }, []) ∧
    sendDraft svcNoClient "a@x.com" "d1" =
      (.error { message := "Failed to send draft", code := "SEND_ERROR",
                resolution := some "Gmail client not initialized" }, []) :=
  c8_unset_client_all_ops_fail_without_requests svcNoClient rfl "a@x.com" "d1"
    dataEmpty 0

/-- Claim C9: attachments whose processing fails are dropped from the result
and the message; attachments whose content download fails are dropped from
the constructed message; in both cases createDraft and updateDraft still
succeed with no error signalled, and the result's attachments field holds
exactly the successfully processed attachments (the message keeps only those
of them whose download also succeeded). -/
theorem c9_failed_attachments_silently_dropped (svc : DraftService)
    (client : GmailClient) (h : svc.gmailClient = some client)
    (email draftId : String) (data : DraftData) (now : Nat)
    (boundary : String) (processed : List Attachment) :
    (createDraft svc email data now).1.map (fun r => r.attachments) =
      .ok ((data.attachments.getD []).filterMap (fun a =>
        let r := svc.processAttachment email (mkAttachmentSource a)
                   ATTACHMENT_FOLDERS_OUTGOING
        if r.success then r.attachment else none)) ∧
    (updateDraft svc email draftId data now).1.map (fun r => r.attachments) =
      .ok ((data.attachments.getD []).filterMap (fun a =>
        let r := svc.processAttachment email (mkAttachmentSource a)
                   ATTACHMENT_FOLDERS_OUTGOING
        if r.success then r.attachment else none)) ∧
    attachmentLoopParts svc email boundary processed =
      (processed.filter (fun att => (svc.downloadFile email att.id).success)).flatMap
        (fun att => attBlock boundary att (svc.downloadFile email att.id).data) := by
  refine ⟨?_, ?_, attachmentLoopParts_eq_filter svc email boundary processed⟩
  · rw [createDraft_ok svc client h email data now]
    exact congrArg Except.ok
      (processAttachmentsLoop_eq_filterMap svc email (data.attachments.getD []))
  · rw [updateDraft_ok svc client h email draftId data now]
    exact congrArg Except.ok
      (processAttachmentsLoop_eq_filterMap svc email (data.attachments.getD []))

/-- Fixture: a Gmail client giving canned responses. -/
def clientFix : GmailClient :=
  { draftsCreate := fun _ _ =>
      { id := "dc1", message := some { id := "m1", threadId := "t1", labelIds := ["DRAFT"] } },
    draftsList := { drafts := ["d1"], nextPageToken := none, resultSizeEstimate := 1 },
    draftsGet := fun i => { id := i, message := none },
    draftsUpdate := fun i _ => { id := i, message := none },
    draftsDelete := fun _ => (),
    draftsSend := fun _ => { id := "sm1", threadId := "t2", labelIds := none } }

/-- Fixture: a service whose client is set, whose attachment processing fails
for attachments named "bad", and whose download fails for file id "id-dl". -/
def svcFix : DraftService :=
  { gmailClient := some clientFix,
    processAttachment := fun _ src _ =>
      if src.name == "bad" then { success := false, attachment := none }
      else { success := true,
             attachment := some { id := "id-" ++ src.name, name := src.name,
                                  mimeType := src.mimeType } },
    downloadFile := fun _ fid =>
      if fid == "id-dl" then { success := false, data := "" }
      else { success := true, data := "DATA" } }

/-- Fixture: an attachment that processes and downloads fine. -/
def attOk : AttachmentParam :=
  { driveFileId := none, content := some "x", name := "ok",
    mimeType := "text/plain", size := some 1 }

/-- Fixture: an attachment whose processing fails. -/
def attBad : AttachmentParam :=
  { driveFileId := none, content := some "x", name := "bad",
    mimeType := "text/plain", size := none }

/-- Fixture: an attachment that processes fine but whose download fails. -/
def attDl : AttachmentParam :=
  { driveFileId := some "f3", content := none, name := "dl",
    mimeType := "text/plain", size := none }

/-- Fixture: draft data carrying the three attachment fixtures. -/
def dataAtt : DraftData :=
  { «to» := ["b@x.com"], subject := "s", body := "b", cc := none, bcc := none,
    threadId := none, attachments := some [attOk, attBad, attDl] }

/-- Witness for claim C9 at a concrete service with one processing failure
and one download failure among three attachments. -/
theorem c9_witness :
    (createDraft svcFix "a@x.com" dataAtt 0).1.map (fun r => r.attachments) =
      .ok ((dataAtt.attachments.getD []).filterMap (fun a =>
        let r := svcFix.processAttachment "a@x.com" (mkAttachmentSource a)
                   ATTACHMENT_FOLDERS_OUTGOING
        if r.success then r.attachment else none)) ∧
    (updateDraft svcFix "a@x.com" "d1" dataAtt 0).1.map (fun r => r.attachments) =
      .ok ((dataAtt.attachments.getD []).filterMap (fun a =>
        let r := svcFix.processAttachment "a@x.com" (mkAttachmentSource a)
                   ATTACHMENT_FOLDERS_OUTGOING
        if r.success then r.attachment else none)) ∧
    attachmentLoopParts svcFix "a@x.com" "B"
        [{ id := "id-ok", name := "ok", mimeType := "text/plain" },
         { id := "id-dl", name := "dl", mimeType := "text/plain" }] =
      (([{ id := "id-ok", name := "ok", mimeType := "text/plain" },
         { id := "id-dl", name := "dl", mimeType := "text/plain" }] :
            List Attachment).filter
          (fun att => (svcFix.downloadFile "a@x.com" att.id).success)).flatMap
        (fun att => attBlock "B" att (svcFix.downloadFile "a@x.com" att.id).data) :=
  c9_failed_attachments_silently_dropped svcFix clientFix rfl "a@x.com" "d1"
    dataAtt 0 "B"
    [{ id := "id-ok", name := "ok", mimeType := "text/plain" },
     { id := "id-dl", name := "dl", mimeType := "text/plain" }]

/-- Claim C10: for action read a missing draftId is not an error — the call
returns the full draft list — while a (nonempty) draftId returns that single
draft; for actions update, delete and send a missing draftId fails with a
GmailError of code INVALID_PARAMS. -/
theorem c10_manage_draft_dispatch (svc : DraftService) (email : String)
    (d : Option DraftData) (dd : DraftData) (did : String) (now : Nat)
    (hdid : did ≠ "") :
    manageDraft svc { email := email, action := .read, draftId := none, data := d } now =
      mapManage ManageResult.listed (listDrafts svc email now) ∧
    manageDraft svc { email := email, action := .read, draftId := some did, data := d } now =
      mapManage ManageResult.single (getDraft svc email did now) ∧
    (manageDraft svc { email := email, action := .update, draftId := none, data := some dd } now).1 =
      .error { message := "Draft ID and data are required for update action",
               code := "INVALID_PARAMS", resolution := none } ∧
    (manageDraft svc { email := email, action := .delete, draftId := none, data := d } now).1 =
      .error { message := "Draft ID is required for delete action",
               code := "INVALID_PARAMS", resolution := none } ∧
    (manageDraft svc { email := email, action := .send, draftId := none, data := d } now).1 =
      .error { message := "Draft ID is required for send action",
               code := "INVALID_PARAMS", resolution := none } := by
  have hbe : (did == "") = false := beq_eq_false_iff_ne.mpr hdid
  refine ⟨?_, ?_, ?_, ?_, ?_⟩ <;>
    simp [manageDraft, optStrTruthy, hbe]

/-- Witness for claim C10 at the concrete fixture service. -/
theorem c10_witness :
    manageDraft svcFix { email := "a@x.com", action := .read, draftId := none, data := none } 0 =
      mapManage ManageResult.listed (listDrafts svcFix "a@x.com" 0) ∧
    manageDraft svcFix { email := "a@x.com", action := .read, draftId := some "d1", data := none } 0 =
      mapManage ManageResult.single (getDraft svcFix "a@x.com" "d1" 0) ∧
    (manageDraft svcFix { email := "a@x.com", action := .update, draftId := none, data := some dataEmpty } 0).1 =
      .error { message := "Draft ID and data are required for update action",
               code := "INVALID_PARAMS", resolution := none } ∧
    (manageDraft svcFix { email := "a@x.com", action := .delete, draftId := none, data := none } 0).1 =
      .error { message := "Draft ID is required for delete action",
               code := "INVALID_PARAMS", resolution := none } ∧
    (manageDraft svcFix { email := "a@x.com", action := .send, draftId := none, data := none } 0).1 =
      .error { message := "Draft ID is required for send action",
               code := "INVALID_PARAMS", resolution := none } :=
  c10_manage_draft_dispatch svcFix "a@x.com" none dataEmpty "d1" 0 (by decide)

/-- Counterexample to claim C3 as stated: the INVALID_PARAMS error thrown by
manageDraft for action update with a missing draftId is constructed without a
resolution, and the formatted failure response for it therefore has no
resolution field (and no field carries the machine-readable code at all). -/
theorem c3_counterexample :
    (manageDraft svcNoClient
        { email := "a@x.com", action := .update, draftId := none, data := some dataEmpty } 0).1 =
      .error { message := "Draft ID and data are required for update action",
               code := "INVALID_PARAMS", resolution := none } ∧
    (formatErrorResponse (.gmail
        { message := "Draft ID and data are required for update action",
          code := "INVALID_PARAMS", resolution := none })).resolution = none :=
  ⟨rfl, rfl⟩

/-- Claim C3 (amended): failure responses carry status "error", the thrown
message, and the thrown error's resolution passed through unchanged — so the
manageDraft INVALID_PARAMS errors for a missing draftId, which are thrown
without a resolution argument, produce responses whose resolution is absent;
no response field carries the machine-readable error code. -/
theorem c3_failure_response_shape (svc : DraftService) (email : String)
    (d : DraftData) (now : Nat) (e : GmailError) :
    (manageDraft svc { email := email, action := .update, draftId := none, data := some d } now).1 =
      .error { message := "Draft ID and data are required for update action",
               code := "INVALID_PARAMS", resolution := none } ∧
    (manageDraft svc { email := email, action := .delete, draftId := none, data := some d } now).1 =
      .error { message := "Draft ID is required for delete action",
               code := "INVALID_PARAMS", resolution := none } ∧
    formatErrorResponse (.gmail e) =
      { status := "error", error := e.message, resolution := e.resolution } :=
  ⟨by simp [manageDraft, optStrTruthy], by simp [manageDraft, optStrTruthy], rfl⟩

end Gsuite
